import Mathlib

/-!
Verification of the instax sales-forecasting dashboard (`app.py`) against its
specification.

Embedding conventions:
* A transaction record is a pair `(Tanggal, Qty)`. Calendar dates are encoded
  as natural-number day codes (`pd.to_datetime` parsing is modelled by
  `String.toNat?` on the raw `Tanggal` field); quantities are integers.
* The pandas pipeline of `load_data` is embedded operation by operation:
  `groupby('Tanggal')['Qty'].sum()` as `groupbySum`, `.resample('D').sum()`
  as `resampleDSum` (which fills every day between the index minimum and
  maximum, absent days summing to zero), `.resample('M').sum()` as
  `resampleMSum`.  The calendar month of a day code is an arbitrary function
  `monthOf : Nat → Nat`, carried as a parameter: every theorem about monthly
  aggregation is proved for all such functions, hence for the real calendar.
* The two statsmodels model objects are external artifacts; their forecast
  operations are modelled from the spec (see the doc comments marked
  `Modelled from the spec`).
* Pandas row labels of the forecast frames are modelled by `Label`,
  distinguishing Timestamp labels from `'%Y-%m'` string labels, and the
  label alignment performed by the `pd.DataFrame` dict-of-Series constructor
  by `alignSeries`; `none` in a cell models NaN.
* Streamlit rendering is modelled by returning a value describing what the
  page shows; `st.error`/`st.warning` messages are collected as strings.
-/

namespace Instax

/-- A raw transaction row as read from the CSV: the `Tanggal` (date) column as
an unparsed string and the `Qty` column as an integer. Other columns of the
file are ignored by `load_data` and are not modelled. -/
abbrev RawRow := String × Int

/-- A parsed transaction record: day code and quantity
(`df` after `df['Tanggal'] = pd.to_datetime(df['Tanggal'])`). -/
abbrev Record := Nat × Int

/-- `pd.to_datetime` on one `Tanggal` cell: produces a day code, or fails.
Dates are encoded as natural numbers, so parsing reads a decimal numeral and
fails on anything else. -/
def parseDate (s : String) : Option Nat :=
  if s.toList ≠ [] ∧ s.toList.all (fun c => c.isDigit) then
    some (s.toList.foldl (fun acc c => acc * 10 + (c.toNat - 48)) 0)
  else none

/-- Parsing the whole `Tanggal` column: fails if any cell is unparseable,
as `pd.to_datetime` raises on the first bad cell. -/
def parseDates (rows : List RawRow) : Option (List Record) :=
  rows.mapM (fun r => (parseDate r.1).map (fun d => (d, r.2)))

/-- Sum of the `Qty` values of the records carrying date `d`. -/
def sumQtyAt (df : List Record) (d : Nat) : Int :=
  ((df.filter (fun r => r.1 = d)).map Prod.snd).sum

/-- `df.groupby('Tanggal')['Qty'].sum()`: one entry per distinct date, in
ascending date order, holding the summed quantity of that date. -/
def groupbySum (df : List Record) : List Record :=
  (List.insertionSort (· ≤ ·) ((df.map Prod.fst).dedup)).map (fun d => (d, sumQtyAt df d))

/-- `series.resample('D').sum()` on a date-indexed series: one entry for every
calendar day from the index minimum to the index maximum, each holding the sum
of the values at that day (so days absent from the index get 0, the sum of
nothing). An empty series resamples to an empty series. -/
def resampleDSum (pairs : List Record) : List Record :=
  match (pairs.map Prod.fst).min?, (pairs.map Prod.fst).max? with
  | some d0, some d1 =>
      (List.range (d1 - d0 + 1)).map (fun i => (d0 + i, sumQtyAt pairs (d0 + i)))
  | _, _ => []

/-- The daily series of `load_data`:
`df.groupby('Tanggal')['Qty'].sum()` then `.resample('D').sum()`. -/
def daily_sales (df : List Record) : List Record :=
  resampleDSum (groupbySum df)

/-- `daily.resample('M').sum()` with the month index kept as a period:
one entry per calendar month occurring among the index dates, in ascending
month order, holding the sum of the values of the days of that month.
`monthOf` maps a day code to its calendar month. -/
def resampleMSum (monthOf : Nat → Nat) (daily : List Record) : List Record :=
  (List.insertionSort (· ≤ ·) ((daily.map (fun p => monthOf p.1)).dedup)).map
    (fun m => (m, ((daily.filter (fun p => monthOf p.1 = m)).map Prod.snd).sum))

/-- The monthly series of `load_data`: the zero-filled daily series resampled
by calendar-month sum. -/
def monthly_sales (monthOf : Nat → Nat) (df : List Record) : List Record :=
  resampleMSum monthOf (daily_sales df)

/-- Total quantity of a record list (sum of the `Qty` column). -/
def totalQty (df : List Record) : Int :=
  (df.map Prod.snd).sum

/-! ### Rounding -/

/-- Round to the nearest integer, ties to even: the rounding used by
`Series.round(0)` (numpy/pandas) and by Python `round`. The subsequent
`.astype(int)` is the identity on an already-integral value, so one function
models the composite `round(0).astype(int)`. -/
def roundHalfEven (q : ℚ) : ℤ :=
  let f := ⌊q⌋
  let frac := q - f
  if frac < 1 / 2 then f
  else if 1 / 2 < frac then f + 1
  else if f % 2 = 0 then f else f + 1

/-! ### Fitted-model artifacts

The two model objects are produced by an external training pipeline
(statsmodels, trained in a notebook) and only consumed here, so their
observable behaviour is modelled from the spec (§3 Fitted Model): fit-quality
scalars that may be absent (reading them can raise), an order/seasonality
description, and a forecast operation over a month-indexed training range.
Months are encoded as natural-number month indices. -/

/-- The deserialized seasonal-ARIMA-type model artifact. `aic?`, `bic?`,
`llf?` are `none` when reading the corresponding attribute raises; `trainEnd`
is the last month index of the training data; `mean`, `ciLo`, `ciHi` give the
raw (fractional) forecast and confidence bounds for each horizon step;
`forecastErr?` is `some msg` when the forecast call raises. -/
structure SarimaModel where
  aic? : Option ℚ
  bic? : Option ℚ
  llf? : Option ℚ
  order : Nat × Nat × Nat
  seasonal_order : Nat × Nat × Nat × Nat
  trainEnd : Nat
  mean : Nat → ℚ
  ciLo : Nat → ℚ
  ciHi : Nat → ℚ
  forecastErr? : Option String

/-- The deserialized Holt-Winters model artifact: fit scalars (`sse?` instead
of a log-likelihood), the seasonal method name, and a point-estimate-only
forecast operation. -/
structure HWModel where
  aic? : Option ℚ
  bic? : Option ℚ
  sse? : Option ℚ
  seasonal : String
  trainEnd : Nat
  mean : Nat → ℚ
  forecastErr? : Option String

/-- Modelled from the spec: `sarima_model.get_forecast(steps=periods)`
followed by reading `predicted_mean` and `conf_int()`; the statsmodels
implementation is external to the repository. Per spec §3, a successful call
yields one row per horizon step with strictly increasing, contiguous month
keys starting the month after the last observed (training) month, a point
estimate and a two-sided confidence interval per step; a raising call is
modelled by `forecastErr?`. -/
def sarima_get_forecast (m : SarimaModel) (steps : Nat) :
    Except String (List (Nat × ℚ × ℚ × ℚ)) :=
  match m.forecastErr? with
  | some e => .error e
  | none =>
      .ok ((List.range steps).map
        (fun i => (m.trainEnd + 1 + i, m.mean i, m.ciLo i, m.ciHi i)))

/-- Modelled from the spec: `hw_model.forecast(steps=periods)` (external
statsmodels implementation). Same month indexing as the SARIMA forecast, point
estimates only. -/
def hw_forecast (m : HWModel) (steps : Nat) :
    Except String (List (Nat × ℚ)) :=
  match m.forecastErr? with
  | some e => .error e
  | none => .ok ((List.range steps).map (fun i => (m.trainEnd + 1 + i, m.mean i)))

/-- One row of the `sarima_results` frame: month key (`Bulan`, the frame
index) and the three rounded integer columns. -/
structure SarimaRow where
  bulan : Nat
  pred : Int
  lower : Int
  upper : Int
  deriving DecidableEq, Repr

/-- A pandas row label as used by the forecast frames: either a Timestamp
(after `index.to_timestamp()`) or a `'%Y-%m'` string (after
`index.strftime('%Y-%m')`), both carrying the same month code. Labels of
different kinds are never equal, which is exactly what label-based alignment
compares. -/
inductive Label where
  | timestamp (m : Nat)
  | text (m : Nat)
  deriving DecidableEq, Repr

/-- The month code carried by a label. -/
def labelMonth : Label → Nat
  | .timestamp m => m
  | .text m => m

/-- `pd.DataFrame({col: series}, index=idx)` for a dict holding one Series:
pandas reindexes the Series by label against the passed `idx`; an index label
absent from the Series' own index yields NaN (`none`) in that cell (the
column becomes a float column). -/
def alignSeries (series : List (Label × Int)) (idx : List Label) :
    List (Label × Option Int) :=
  idx.map (fun l => (l, (series.find? (fun q => q.1 = l)).map Prod.snd))

/-- One row of the `hw_results` frame: month key (the `'%Y-%m'` index string,
encoded by its month code) and the Holt-Winters column cell, where `none`
models NaN. -/
structure HWRow where
  bulan : Nat
  pred : Option Int
  deriving DecidableEq, Repr

/-- One row of `combined_results = sarima_results.join(hw_results)`: the left
join keeps every SARIMA row and attaches the Holt-Winters cell of the same
month key (`none` models NaN, from an unmatched join key or from a NaN cell
of the joined frame). -/
structure CombinedRow where
  bulan : Nat
  sarimaPred : Int
  sarimaLower : Int
  sarimaUpper : Int
  hwPred : Option Int
  deriving DecidableEq, Repr

/-- The SARIMA half of `forecast_page`: try block building `sarima_results`
(round every raw value to an integer, index by month); `none` when the
forecast call raised and the except branch set `sarima_results = None`. -/
def sarima_results (m : SarimaModel) (periods : Nat) : Option (List SarimaRow) :=
  match sarima_get_forecast m periods with
  | .error _ => none
  | .ok rows =>
      some (rows.map (fun r =>
        ⟨r.1, roundHalfEven r.2.1, roundHalfEven r.2.2.1, roundHalfEven r.2.2.2⟩))

/-- The Holt-Winters half of `forecast_page` (lines 234-247): the forecast
Series is reindexed to Timestamps, rounded, then passed as a dict-of-Series
to `pd.DataFrame` together with `index=hw_forecast.index.strftime('%Y-%m')`.
The constructor label-aligns the Timestamp-indexed Series against the string
labels, so every cell of the built column is NaN; `none` on the outside still
means the forecast call raised and the except branch set the frame to None. -/
def hw_results (m : HWModel) (periods : Nat) : Option (List HWRow) :=
  match hw_forecast m periods with
  | .error _ => none
  | .ok rows =>
      some ((alignSeries (rows.map (fun r => (Label.timestamp r.1, roundHalfEven r.2)))
          (rows.map (fun r => Label.text r.1))).map
        (fun q => ⟨labelMonth q.1, q.2⟩))

/-- `sarima_results.join(hw_results)`: pandas `DataFrame.join` left-joins on
the index, so every SARIMA row survives and the Holt-Winters column is looked
up by month key; an unmatched key yields NaN, and a matched row's NaN cell
stays NaN. -/
def joinResults (s : List SarimaRow) (h : List HWRow) : List CombinedRow :=
  s.map (fun r =>
    ⟨r.bulan, r.pred, r.lower, r.upper,
      (h.find? (fun q => q.bulan = r.bulan)).bind HWRow.pred⟩)

/-- The merge step of `forecast_page`: the combined frame is built (and the
table and chart rendered) only inside
`if sarima_results is not None and hw_results is not None`. -/
def combined_results (s? : Option (List SarimaRow)) (h? : Option (List HWRow)) :
    Option (List CombinedRow) :=
  match s?, h? with
  | some s, some h => some (joinResults s h)
  | _, _ => none

/-- The inline `st.error` messages emitted by the two per-model except
branches of `forecast_page`. -/
def forecast_errors (s? : Option (List SarimaRow)) (h? : Option (List HWRow)) :
    List String :=
  (match s? with
   | none => ["Gagal melakukan peramalan SARIMA"]
   | some _ => [])
  ++ (match h? with
      | none => ["Gagal melakukan peramalan Holt-Winters"]
      | some _ => [])

/-- What the Forecast View shows after the run button: either the early-return
warning, or the collected per-model error messages together with the combined
table (`none` when the both-succeeded guard failed and no table or chart was
rendered). Chart drawing (matplotlib) is external rendering and carries the
same data as the table. -/
inductive ForecastRender where
  | warning (msg : String)
  | results (table? : Option (List CombinedRow)) (errors : List String)
  deriving DecidableEq, Repr

/-- `forecast_page` for a run with horizon `periods`: the guard on absent
models/data (lines 193-195), the two guarded forecast computations, and the
merge guarded by both having succeeded (lines 250-253). -/
def forecast_page (sm? : Option SarimaModel) (hm? : Option HWModel)
    (monthly? : Option (List Record)) (periods : Nat) : ForecastRender :=
  match sm?, hm?, monthly? with
  | some sm, some hm, some _ =>
      ForecastRender.results
        (combined_results (sarima_results sm periods) (hw_results hm periods))
        (forecast_errors (sarima_results sm periods) (hw_results hm periods))
  | _, _, _ =>
      ForecastRender.warning
        "Model atau Data Bulanan belum termuat sepenuhnya. Silakan coba lagi atau pastikan file model tersedia."

/-! ### Model Analysis View -/

/-- A displayed metric: a numeric value or the literal N/A placeholder. -/
inductive Cell where
  | num (q : ℚ)
  | na
  deriving DecidableEq, Repr

/-- How a metric cell is rendered by `st.metric`. -/
def Cell.display : Cell → String
  | .num q => toString q
  | .na => "N/A"

/-- The SARIMA metric block of `model_analysis_page`: one try block reads
`aic`, `bic`, `llf`; if any read raises, the except branch replaces all three
of this model's metrics with the literal string N/A. -/
def sarimaMetrics (m : SarimaModel) : Cell × Cell × Cell :=
  match m.aic?, m.bic?, m.llf? with
  | some a, some b, some l => (Cell.num a, Cell.num b, Cell.num l)
  | _, _, _ => (Cell.na, Cell.na, Cell.na)

/-- The Holt-Winters metric block: `aic`, `bic`, `sse` under one try block. -/
def hwMetrics (m : HWModel) : Cell × Cell × Cell :=
  match m.aic?, m.bic?, m.sse? with
  | some a, some b, some s => (Cell.num a, Cell.num b, Cell.num s)
  | _, _, _ => (Cell.na, Cell.na, Cell.na)

/-- What the Model Analysis View shows: the early-return warning, or the page
with both metric blocks. The in-sample comparison chart (matplotlib) is
external rendering and not part of the claims. -/
inductive AnalysisRender where
  | warning (msg : String)
  | page (sarimaCells : Cell × Cell × Cell) (hwCells : Cell × Cell × Cell)
  deriving DecidableEq, Repr

/-- `model_analysis_page`: the guard on absent models/data (lines 111-113)
and the metric blocks (lines 119-146). -/
def model_analysis_page (sm? : Option SarimaModel) (hm? : Option HWModel)
    (monthly? : Option (List Record)) : AnalysisRender :=
  match sm?, hm?, monthly? with
  | some sm, some hm, some _ => AnalysisRender.page (sarimaMetrics sm) (hwMetrics hm)
  | _, _, _ =>
      AnalysisRender.warning
        "Model atau Data Bulanan belum termuat sepenuhnya. Silakan cek status di log."

/-! ### Loaders and sidebar -/

/-- The three results of `load_data` plus the inline error messages it
emitted (`st.error`). All three results are `None` on any failure. -/
structure LoadOut where
  raw : Option (List Record)
  daily : Option (List Record)
  monthly : Option (List Record)
  errors : List String
  deriving Repr

/-- `load_data(file_path)`: the file either does not resolve (`none`, the
`FileNotFoundError` branch) or holds raw rows. Any parse fault
(`pd.to_datetime` raising on an unparseable `Tanggal` cell) lands in the
generic except branch. On success all three series are returned; on any
failure the function catches, emits an inline error, and returns the
`(None, None, None)` triple instead of propagating. -/
def load_data (monthOf : Nat → Nat) (file? : Option (List RawRow)) : LoadOut :=
  match file? with
  | none => ⟨none, none, none, ["File data tidak ditemukan"]⟩
  | some rows =>
      match parseDates rows with
      | none => ⟨none, none, none, ["Terjadi kesalahan saat memuat atau memproses data"]⟩
      | some df => ⟨some df, some (daily_sales df), some (monthly_sales monthOf df), []⟩

/-- A serialized model artifact on disk: absent file, unpicklable content, or
a well-formed model object. -/
inductive Artifact (M : Type) where
  | missing
  | corrupt
  | ok (m : M)

/-- `load_model(file_path)`: returns the deserialized object, or `None` plus
an inline error for a missing (`FileNotFoundError` branch) or corrupt
(generic except branch) artifact; never propagates the exception. -/
def load_model {M : Type} (artifact : Artifact M) : Option M × List String :=
  match artifact with
  | .missing => (none, ["File model tidak ditemukan"])
  | .corrupt => (none, ["Terjadi kesalahan saat memuat model"])
  | .ok m => (some m, [])

/-- The sidebar footer (lines 319-323): inside `if df_raw is not None`, the
record count and the min/max of the `Tanggal` column are written; otherwise
nothing is written (no placeholder, no error). -/
def sidebar_footer (raw? : Option (List Record)) :
    Option (Nat × Option Nat × Option Nat) :=
  raw?.map (fun df => (df.length, (df.map Prod.fst).min?, (df.map Prod.fst).max?))

/-! ### Sample artifacts (concrete instances used to evaluate the
definitions on closed inputs) -/

/-- A SARIMA artifact whose forecast succeeds, trained through month 5. -/
def smA : SarimaModel :=
  ⟨some 10, some 12, some (-5), (1, 0, 1), (0, 1, 1, 12), 5,
   fun i => (i : ℚ) + 3 / 2, fun i => (i : ℚ) - 2, fun i => (i : ℚ) + 7 / 2, none⟩

/-- A Holt-Winters artifact whose forecast succeeds, trained through month 5. -/
def hwA : HWModel :=
  ⟨some 11, some 13, some 40, "add", 5, fun i => (i : ℚ) + 1 / 2, none⟩

/-- A SARIMA artifact whose forecast call raises. -/
def smFailA : SarimaModel :=
  ⟨some 10, some 12, some (-5), (1, 0, 1), (0, 1, 1, 12), 5,
   fun i => (i : ℚ), fun i => (i : ℚ), fun i => (i : ℚ), some "LinAlgError"⟩

/-- A Holt-Winters artifact whose forecast call raises. -/
def hwFailA : HWModel :=
  ⟨some 11, some 13, some 40, "add", 5, fun i => (i : ℚ), some "ValueError"⟩

/-- A SARIMA artifact on which reading `aic` raises. -/
def smNA : SarimaModel :=
  ⟨none, some 12, some (-5), (1, 0, 1), (0, 1, 1, 12), 5,
   fun _ => 0, fun _ => 0, fun _ => 0, none⟩

/-- A Holt-Winters artifact on which reading `bic` raises. -/
def hwNA : HWModel :=
  ⟨some 11, none, some 40, "add", 5, fun _ => 0, none⟩

/-! ### Helper lemmas about min?/max? on natural-number lists -/

theorem natMin?_eq_some_iff {a : Nat} {xs : List Nat} :
    xs.min? = some a ↔ a ∈ xs ∧ ∀ b ∈ xs, a ≤ b :=
  List.min?_eq_some_iff (fun a => Nat.le_refl a) (fun a b => min_choice a b)
    (fun _ _ _ => le_min_iff)

theorem natMax?_eq_some_iff {a : Nat} {xs : List Nat} :
    xs.max? = some a ↔ a ∈ xs ∧ ∀ b ∈ xs, b ≤ a :=
  List.max?_eq_some_iff (fun a => Nat.le_refl a) (fun a b => max_choice a b)
    (fun _ _ _ => max_le_iff)

theorem natMin?_congr {xs ys : List Nat} (h : ∀ a, a ∈ xs ↔ a ∈ ys) :
    xs.min? = ys.min? := by
  rcases hy : ys.min? with _ | m
  · rcases hx : xs.min? with _ | m
    · rfl
    · rcases (natMin?_eq_some_iff.mp hx) with ⟨hmem, -⟩
      rw [List.min?_eq_none_iff] at hy
      rw [hy] at h
      simpa using (h m).mp hmem
  · rcases (natMin?_eq_some_iff.mp hy) with ⟨hmem, hle⟩
    exact natMin?_eq_some_iff.mpr ⟨(h m).mpr hmem, fun b hb => hle b ((h b).mp hb)⟩

theorem natMax?_congr {xs ys : List Nat} (h : ∀ a, a ∈ xs ↔ a ∈ ys) :
    xs.max? = ys.max? := by
  rcases hy : ys.max? with _ | m
  · rcases hx : xs.max? with _ | m
    · rfl
    · rcases (natMax?_eq_some_iff.mp hx) with ⟨hmem, -⟩
      rw [List.max?_eq_none_iff] at hy
      rw [hy] at h
      simpa using (h m).mp hmem
  · rcases (natMax?_eq_some_iff.mp hy) with ⟨hmem, hle⟩
    exact natMax?_eq_some_iff.mpr ⟨(h m).mpr hmem, fun b hb => hle b ((h b).mp hb)⟩

/-! ### Lemmas about groupbySum -/

/-- The index (date column) of the groupby output is the sorted deduplication
of the raw date column. -/
theorem groupbySum_dates (df : List Record) :
    (groupbySum df).map Prod.fst = List.insertionSort (· ≤ ·) ((df.map Prod.fst).dedup) := by
  rw [groupbySum, List.map_map]
  exact List.map_id _

theorem mem_groupbySum_dates {df : List Record} {d : Nat} :
    d ∈ (groupbySum df).map Prod.fst ↔ d ∈ df.map Prod.fst := by
  rw [groupbySum_dates]
  rw [(List.perm_insertionSort (· ≤ ·) ((df.map Prod.fst).dedup)).mem_iff]
  exact List.mem_dedup

theorem sumQtyAt_nil (d : Nat) : sumQtyAt [] d = 0 := by
  simp [sumQtyAt]

theorem sumQtyAt_cons (r : Record) (df : List Record) (d : Nat) :
    sumQtyAt (r :: df) d = (if r.1 = d then r.2 else 0) + sumQtyAt df d := by
  by_cases h : r.1 = d <;> simp [sumQtyAt, List.filter_cons, h]

/-- If no record carries date `d`, the per-day sum at `d` is zero. -/
theorem sumQtyAt_eq_zero_of_not_mem {df : List Record} {d : Nat}
    (hd : d ∉ df.map Prod.fst) : sumQtyAt df d = 0 := by
  have hfilter : df.filter (fun r => r.1 = d) = [] := by
    rw [List.filter_eq_nil_iff]
    intro r hr hrd
    exact hd (List.mem_map.mpr ⟨r, hr, by simpa using hrd⟩)
  simp [sumQtyAt, hfilter]

/-- Per-day sum over a list of key-value pairs built from a key list. -/
theorem sumQtyAt_map_pairs (L : List Nat) (f : Nat → Int) (d : Nat) :
    sumQtyAt (L.map (fun x => (x, f x))) d = (L.count d : Int) * f d := by
  induction L with
  | nil => simp [sumQtyAt]
  | cons a L ih =>
      rw [List.map_cons, sumQtyAt_cons, ih, List.count_cons]
      by_cases h : a = d
      · simp only [h, if_pos rfl, beq_self_eq_true, if_true]
        push_cast
        ring
      · simp [h]

/-- Grouping preserves the per-day quantity sums. -/
theorem sumQtyAt_groupbySum (df : List Record) (d : Nat) :
    sumQtyAt (groupbySum df) d = sumQtyAt df d := by
  rw [groupbySum, sumQtyAt_map_pairs]
  have hcount :
      List.count d (List.insertionSort (· ≤ ·) ((df.map Prod.fst).dedup))
        = List.count d ((df.map Prod.fst).dedup) :=
    (List.perm_insertionSort (· ≤ ·) ((df.map Prod.fst).dedup)).count_eq d
  rw [hcount, List.count_dedup]
  by_cases hd : d ∈ df.map Prod.fst
  · simp [hd]
  · rw [sumQtyAt_eq_zero_of_not_mem hd]
    simp [hd]

/-! ### Characterization of the daily series -/

theorem groupbySum_min? (df : List Record) :
    ((groupbySum df).map Prod.fst).min? = (df.map Prod.fst).min? :=
  natMin?_congr (fun _ => mem_groupbySum_dates)

theorem groupbySum_max? (df : List Record) :
    ((groupbySum df).map Prod.fst).max? = (df.map Prod.fst).max? :=
  natMax?_congr (fun _ => mem_groupbySum_dates)

/-- Explicit form of the daily series: for a nonempty record list with date
range `[d0, d1]`, the series is the list of per-day sums over every day of the
range. -/
theorem daily_sales_eq {df : List Record} {d0 d1 : Nat}
    (h0 : (df.map Prod.fst).min? = some d0)
    (h1 : (df.map Prod.fst).max? = some d1) :
    daily_sales df
      = (List.range (d1 - d0 + 1)).map (fun i => (d0 + i, sumQtyAt df (d0 + i))) := by
  have h0' : ((groupbySum df).map Prod.fst).min? = some d0 := by
    rw [groupbySum_min?]; exact h0
  have h1' : ((groupbySum df).map Prod.fst).max? = some d1 := by
    rw [groupbySum_max?]; exact h1
  have hfun :
      (fun i => (d0 + i, sumQtyAt (groupbySum df) (d0 + i)))
        = fun i => (d0 + i, sumQtyAt df (d0 + i)) := by
    funext i; rw [sumQtyAt_groupbySum]
  rw [daily_sales, resampleDSum, h0', h1']
  exact congrArg (fun f => List.map f (List.range (d1 - d0 + 1))) hfun

theorem min?_le_max? {df : List Record} {d0 d1 : Nat}
    (h0 : (df.map Prod.fst).min? = some d0)
    (h1 : (df.map Prod.fst).max? = some d1) : d0 ≤ d1 := by
  rcases natMin?_eq_some_iff.mp h0 with ⟨hmem0, -⟩
  rcases natMax?_eq_some_iff.mp h1 with ⟨-, hle1⟩
  exact hle1 d0 hmem0

/-- C1, main content, split for reuse: length, sortedness, membership and
values of the daily series. -/
theorem daily_sales_length {df : List Record} {d0 d1 : Nat}
    (h0 : (df.map Prod.fst).min? = some d0)
    (h1 : (df.map Prod.fst).max? = some d1) :
    (daily_sales df).length = d1 - d0 + 1 := by
  rw [daily_sales_eq h0 h1, List.length_map, List.length_range]

theorem daily_sales_sorted {df : List Record} {d0 d1 : Nat}
    (h0 : (df.map Prod.fst).min? = some d0)
    (h1 : (df.map Prod.fst).max? = some d1) :
    List.Pairwise (fun p q : Record => p.1 < q.1) (daily_sales df) := by
  rw [daily_sales_eq h0 h1]
  exact (List.pairwise_lt_range (d1 - d0 + 1)).map _ (fun a b h => by simpa using h)

theorem daily_sales_mem {df : List Record} {d0 d1 : Nat}
    (h0 : (df.map Prod.fst).min? = some d0)
    (h1 : (df.map Prod.fst).max? = some d1)
    {d : Nat} (hd0 : d0 ≤ d) (hd1 : d ≤ d1) :
    (d, sumQtyAt df d) ∈ daily_sales df := by
  rw [daily_sales_eq h0 h1]
  refine List.mem_map.mpr ⟨d - d0, List.mem_range.mpr (by omega), ?_⟩
  have : d0 + (d - d0) = d := by omega
  rw [this]

theorem daily_sales_mem_inv {df : List Record} {d0 d1 : Nat}
    (h0 : (df.map Prod.fst).min? = some d0)
    (h1 : (df.map Prod.fst).max? = some d1)
    {p : Record} (hp : p ∈ daily_sales df) :
    d0 ≤ p.1 ∧ p.1 ≤ d1 ∧ p.2 = sumQtyAt df p.1 := by
  rw [daily_sales_eq h0 h1] at hp
  rcases List.mem_map.mp hp with ⟨i, hi, hpi⟩
  have hid : i < d1 - d0 + 1 := List.mem_range.mp hi
  have hle := min?_le_max? h0 h1
  subst hpi
  refine ⟨by omega, by omega, rfl⟩

/-! ### Sum preservation -/

/-- Bridging a list sum over `List.range` to a `Finset.range` sum. -/
theorem totalQty_map_range (d0 n : Nat) (f : Nat → Int) :
    totalQty ((List.range n).map (fun i => (d0 + i, f (d0 + i))))
      = ∑ i ∈ Finset.range n, f (d0 + i) := by
  induction n with
  | zero => simp [totalQty]
  | succ n ih =>
      rw [List.range_succ, List.map_append, totalQty, List.map_append,
        List.sum_append, Finset.sum_range_succ]
      rw [totalQty] at ih
      rw [ih]
      simp

/-- Summing the per-day sums over a range covering every record date gives the
total quantity. -/
theorem sum_range_sumQtyAt (df : List Record) (d0 n : Nat)
    (h : ∀ r ∈ df, d0 ≤ r.1 ∧ r.1 < d0 + n) :
    ∑ i ∈ Finset.range n, sumQtyAt df (d0 + i) = totalQty df := by
  induction df with
  | nil => simp [sumQtyAt_nil, totalQty]
  | cons r df ih =>
      have hr := h r (List.mem_cons_self r df)
      have ih' := ih (fun s hs => h s (List.mem_cons_of_mem _ hs))
      simp only [sumQtyAt_cons]
      rw [Finset.sum_add_distrib, ih']
      have hite : ∀ i : Nat, (if r.1 = d0 + i then r.2 else 0)
          = (if i = r.1 - d0 then r.2 else 0) := by
        intro i
        rcases hr with ⟨hr0, -⟩
        by_cases hc : r.1 = d0 + i
        · rw [if_pos hc, if_pos (by omega)]
        · rw [if_neg hc, if_neg (by omega)]
      have hsum : ∑ i ∈ Finset.range n, (if r.1 = d0 + i then r.2 else 0) = r.2 := by
        rw [Finset.sum_congr rfl (fun i _ => hite i)]
        rw [Finset.sum_ite_eq' (Finset.range n) (r.1 - d0) (fun _ => r.2)]
        rcases hr with ⟨hr0, hr1⟩
        rw [if_pos (Finset.mem_range.mpr (by omega))]
      rw [hsum]
      simp [totalQty]

theorem daily_sales_nil : daily_sales [] = [] := by
  simp [daily_sales, groupbySum, resampleDSum]

/-! ### Characterization of the monthly series -/

theorem resampleMSum_months (monthOf : Nat → Nat) (daily : List Record) :
    (resampleMSum monthOf daily).map Prod.fst
      = List.insertionSort (· ≤ ·) ((daily.map (fun p => monthOf p.1)).dedup) := by
  rw [resampleMSum, List.map_map]
  exact List.map_id _

theorem mem_resampleMSum_months {monthOf : Nat → Nat} {daily : List Record} {m : Nat} :
    m ∈ (resampleMSum monthOf daily).map Prod.fst
      ↔ m ∈ daily.map (fun p => monthOf p.1) := by
  rw [resampleMSum_months]
  rw [(List.perm_insertionSort (· ≤ ·) ((daily.map (fun p => monthOf p.1)).dedup)).mem_iff]
  exact List.mem_dedup

theorem resampleMSum_nodup (monthOf : Nat → Nat) (daily : List Record) :
    ((resampleMSum monthOf daily).map Prod.fst).Nodup := by
  rw [resampleMSum_months]
  exact ((List.perm_insertionSort (· ≤ ·) _).nodup_iff).mpr
    (List.nodup_dedup (daily.map (fun p => monthOf p.1)))

theorem resampleMSum_value {monthOf : Nat → Nat} {daily : List Record} {p : Record}
    (hp : p ∈ resampleMSum monthOf daily) :
    p.2 = totalQty (daily.filter (fun q => monthOf q.1 = p.1)) := by
  rcases List.mem_map.mp hp with ⟨m, -, hm⟩
  subst hm
  rfl

/-! ### Forecast-page lemmas -/

theorem sarima_results_eq (m : SarimaModel) (p : Nat) (h : m.forecastErr? = none) :
    sarima_results m p
      = some ((List.range p).map (fun i =>
          ⟨m.trainEnd + 1 + i, roundHalfEven (m.mean i),
           roundHalfEven (m.ciLo i), roundHalfEven (m.ciHi i)⟩)) := by
  simp only [sarima_results, sarima_get_forecast, h, List.map_map]
  rfl

/-- Label alignment of a Timestamp-indexed series against string labels hits
no label at all: every cell is NaN. -/
theorem alignSeries_all_none (series : List (Label × Int)) (idx : List Label)
    (hser : ∀ q ∈ series, ∃ k, q.1 = Label.timestamp k)
    (hidx : ∀ l ∈ idx, ∃ k, l = Label.text k) :
    alignSeries series idx = idx.map (fun l => (l, none)) := by
  unfold alignSeries
  apply List.map_congr_left
  intro l hl
  rcases hidx l hl with ⟨k, rfl⟩
  have hf : series.find? (fun q => q.1 = Label.text k) = none := by
    rw [List.find?_eq_none]
    intro x hx
    rcases hser x hx with ⟨k', hk'⟩
    simp [hk']
  rw [hf]
  rfl

/-- The Holt-Winters frame construction of lines 241-243 produces NaN in
every cell of its column, regardless of the rounded values it was handed. -/
theorem hwFrame_all_nan (rows : List (Nat × ℚ)) :
    (alignSeries (rows.map (fun r => (Label.timestamp r.1, roundHalfEven r.2)))
        (rows.map (fun r => Label.text r.1))).map
      (fun q => (⟨labelMonth q.1, q.2⟩ : HWRow))
    = rows.map (fun r => ⟨r.1, none⟩) := by
  rw [alignSeries_all_none]
  · rw [List.map_map, List.map_map]
    apply List.map_congr_left
    intro r _
    rfl
  · intro q hq
    rcases List.mem_map.mp hq with ⟨r, -, rfl⟩
    exact ⟨r.1, rfl⟩
  · intro l hl
    rcases List.mem_map.mp hl with ⟨r, -, rfl⟩
    exact ⟨r.1, rfl⟩

theorem hw_results_eq (m : HWModel) (p : Nat) (h : m.forecastErr? = none) :
    hw_results m p
      = some ((List.range p).map (fun i =>
          (⟨m.trainEnd + 1 + i, none⟩ : HWRow))) := by
  simp only [hw_results, hw_forecast, h]
  rw [hwFrame_all_nan, List.map_map]
  rfl

theorem sarima_results_none (m : SarimaModel) (p : Nat) {e : String}
    (h : m.forecastErr? = some e) : sarima_results m p = none := by
  simp only [sarima_results, sarima_get_forecast, h]

theorem hw_results_none (m : HWModel) (p : Nat) {e : String}
    (h : m.forecastErr? = some e) : hw_results m p = none := by
  simp only [hw_results, hw_forecast, h]

/-- Shape of the combined table when both forecasts succeed: one row per
horizon step, month keys contiguous from the SARIMA training end. -/
theorem combined_results_months (sm : SarimaModel) (hm : HWModel) (p : Nat)
    (hs : sm.forecastErr? = none) (hh : hm.forecastErr? = none) :
    ∃ t, combined_results (sarima_results sm p) (hw_results hm p) = some t
      ∧ t.length = p
      ∧ (∀ i, (hi : i < t.length) → t[i].bulan = sm.trainEnd + 1 + i) := by
  rw [sarima_results_eq sm p hs, hw_results_eq hm p hh]
  refine ⟨_, rfl, by simp [joinResults], ?_⟩
  intro i hi
  simp only [joinResults, List.map_map, List.getElem_map] at hi ⊢
  rw [List.getElem_range]
  rfl

/-! ### Claim theorems: data loading and aggregation -/

/-- C1: for every input transaction file whose parsed dates span `[d0, d1]`,
the daily series produced by `load_data` has exactly `d1 - d0 + 1` entries,
one per calendar day, sorted ascending by date, each day's value the sum of
the `Qty` of the raw records of that day, and days absent from the raw data
carry the value zero. -/
theorem daily_series_gapless (monthOf : Nat → Nat) (rows : List RawRow)
    (df : List Record) (d0 d1 : Nat)
    (hparse : parseDates rows = some df)
    (h0 : (df.map Prod.fst).min? = some d0)
    (h1 : (df.map Prod.fst).max? = some d1) :
    (load_data monthOf (some rows)).daily = some (daily_sales df)
    ∧ (daily_sales df).length = d1 - d0 + 1
    ∧ List.Pairwise (fun p q : Record => p.1 < q.1) (daily_sales df)
    ∧ (∀ d, d0 ≤ d → d ≤ d1 → (d, sumQtyAt df d) ∈ daily_sales df)
    ∧ (∀ p ∈ daily_sales df, d0 ≤ p.1 ∧ p.1 ≤ d1 ∧ p.2 = sumQtyAt df p.1)
    ∧ (∀ d, d0 ≤ d → d ≤ d1 → d ∉ df.map Prod.fst → (d, 0) ∈ daily_sales df) := by
  refine ⟨by simp [load_data, hparse], daily_sales_length h0 h1,
    daily_sales_sorted h0 h1,
    fun d hd0 hd1 => daily_sales_mem h0 h1 hd0 hd1,
    fun p hp => daily_sales_mem_inv h0 h1 hp,
    fun d hd0 hd1 hnm => ?_⟩
  have hmem := daily_sales_mem h0 h1 hd0 hd1
  rwa [sumQtyAt_eq_zero_of_not_mem hnm] at hmem

theorem daily_series_gapless_witness :
    (daily_sales [((1 : Nat), (3 : Int)), (3, 5)]).length = 3 - 1 + 1
    ∧ ((2 : Nat), (0 : Int)) ∈ daily_sales [((1 : Nat), (3 : Int)), (3, 5)] :=
  ⟨(daily_series_gapless (fun d => d / 31) [("1", 3), ("3", 5)]
      [(1, 3), (3, 5)] 1 3 rfl rfl rfl).2.1,
   (daily_series_gapless (fun d => d / 31) [("1", 3), ("3", 5)]
      [(1, 3), (3, 5)] 1 3 rfl rfl rfl).2.2.2.2.2 2 (by decide) (by decide) (by decide)⟩

/-- C2: each entry of the monthly series produced by `load_data` equals the
exact sum of the daily-series entries of the days of that month; the monthly
index consists of exactly the months occurring in the daily series, each
once (the month-sum resample loses and invents nothing). Proved for every
month-of-day function, hence for the real calendar. -/
theorem monthly_sum_roundtrip (monthOf : Nat → Nat) (rows : List RawRow)
    (df : List Record) (hparse : parseDates rows = some df) :
    (load_data monthOf (some rows)).monthly = some (monthly_sales monthOf df)
    ∧ (∀ p ∈ monthly_sales monthOf df,
        p.2 = totalQty ((daily_sales df).filter (fun q => monthOf q.1 = p.1)))
    ∧ (∀ m, m ∈ (monthly_sales monthOf df).map Prod.fst
        ↔ ∃ q ∈ daily_sales df, monthOf q.1 = m)
    ∧ ((monthly_sales monthOf df).map Prod.fst).Nodup := by
  refine ⟨by simp [load_data, hparse], fun p hp => resampleMSum_value hp,
    fun m => ?_, resampleMSum_nodup monthOf (daily_sales df)⟩
  unfold monthly_sales
  rw [mem_resampleMSum_months, List.mem_map]

theorem monthly_sum_roundtrip_witness :
    ((8 : Int)
      = totalQty ((daily_sales [((1 : Nat), (3 : Int)), (3, 5)]).filter
          (fun q => q.1 / 31 = 0))) :=
  (monthly_sum_roundtrip (fun d => d / 31) [("1", 3), ("3", 5)]
      [(1, 3), (3, 5)] rfl).2.1 (0, 8) (by decide)

/-- C10: the sum of all entries of the zero-filled daily series equals the sum
of the `Qty` column over all raw transaction records: grouping by date and
zero-filled daily resampling preserve the total quantity. -/
theorem daily_series_preserves_total (df : List Record) :
    totalQty (daily_sales df) = totalQty df := by
  rcases h0 : (df.map Prod.fst).min? with _ | d0
  · rw [List.min?_eq_none_iff] at h0
    have hdf : df = [] := List.map_eq_nil_iff.mp h0
    subst hdf
    rw [daily_sales_nil]
  · rcases h1 : (df.map Prod.fst).max? with _ | d1
    · rw [List.max?_eq_none_iff] at h1
      rw [h1] at h0
      simp at h0
    · have hle := min?_le_max? h0 h1
      rcases natMin?_eq_some_iff.mp h0 with ⟨-, hmin⟩
      rcases natMax?_eq_some_iff.mp h1 with ⟨-, hmax⟩
      rw [daily_sales_eq h0 h1]
      rw [totalQty_map_range d0 (d1 - d0 + 1) (fun d => sumQtyAt df d)]
      refine sum_range_sumQtyAt df d0 (d1 - d0 + 1) (fun r hr => ?_)
      have hrmem : r.1 ∈ df.map Prod.fst := List.mem_map.mpr ⟨r, hr, rfl⟩
      exact ⟨hmin r.1 hrmem, by have := hmax r.1 hrmem; omega⟩

/-! ### Claim theorems: Forecast View -/

/-- C3: for every horizon `1 ≤ periods ≤ 12`, when both forecast calls
succeed the combined forecast table has exactly `periods` rows, its month
keys are strictly increasing and contiguous, and the first month is exactly
one month after the last month of the historical monthly series (`lastM`,
the training end of the SARIMA model per the spec's Fitted Model contract).
Each row's month key is `lastM + 1 + i`, which subsumes strict increase,
contiguity, and the starting month. -/
theorem forecast_table_shape (sm : SarimaModel) (hm : HWModel)
    (monthly : List Record) (p lastM : Nat)
    (_hp1 : 1 ≤ p) (_hp2 : p ≤ 12)
    (hs : sm.forecastErr? = none) (hh : hm.forecastErr? = none)
    (_hlast : (monthly.map Prod.fst).max? = some lastM)
    (hsm : sm.trainEnd = lastM) :
    ∃ t, forecast_page (some sm) (some hm) (some monthly) p
        = ForecastRender.results (some t) []
      ∧ t.length = p
      ∧ (∀ i, (hi : i < t.length) → t[i].bulan = lastM + 1 + i) := by
  rcases combined_results_months sm hm p hs hh with ⟨t, hct, hlen, hbulan⟩
  refine ⟨t, ?_, hlen, fun i hi => by rw [hbulan i hi, hsm]⟩
  show ForecastRender.results
      (combined_results (sarima_results sm p) (hw_results hm p))
      (forecast_errors (sarima_results sm p) (hw_results hm p))
    = ForecastRender.results (some t) []
  rw [hct, sarima_results_eq sm p hs, hw_results_eq hm p hh]
  rfl

theorem forecast_table_shape_witness :
    ∃ t, forecast_page (some smA) (some hwA) (some [(3, 4), (5, 6)]) 3
        = ForecastRender.results (some t) []
      ∧ t.length = 3
      ∧ (∀ i, (hi : i < t.length) → t[i].bulan = 5 + 1 + i) :=
  forecast_table_shape smA hwA [(3, 4), (5, 6)] 3 5
    (by decide) (by decide) rfl rfl (by decide) rfl

/-- C4, counterexample: with a SARIMA artifact whose forecast raises and a
Holt-Winters artifact whose forecast succeeds, the Forecast View renders no
combined table at all (the guard requires both results), contradicting the
claim that the table is still rendered with the successful model's columns. -/
theorem forecast_one_failure_cex :
    (hw_results hwA 3).isSome = true
    ∧ sarima_results smFailA 3 = none
    ∧ forecast_page (some smFailA) (some hwA) (some [(3, 4), (5, 6)]) 3
        = ForecastRender.results none ["Gagal melakukan peramalan SARIMA"] :=
  ⟨rfl, rfl, rfl⟩

/-- C4, amended: the Forecast View never fails outright — it always renders
the per-model inline errors and the merge result — but the combined table is
rendered exactly when BOTH forecasts succeed; if either model's forecast call
fails, no table (and no chart) is rendered, the failure being reported only
through that model's inline error message. -/
theorem forecast_table_requires_both (sm : SarimaModel) (hm : HWModel)
    (monthly : List Record) (p : Nat) :
    forecast_page (some sm) (some hm) (some monthly) p
      = ForecastRender.results
          (combined_results (sarima_results sm p) (hw_results hm p))
          (forecast_errors (sarima_results sm p) (hw_results hm p))
    ∧ ((combined_results (sarima_results sm p) (hw_results hm p)).isSome
        ↔ (sarima_results sm p).isSome ∧ (hw_results hm p).isSome) := by
  refine ⟨rfl, ?_⟩
  cases sarima_results sm p <;> cases hw_results hm p <;>
    simp [combined_results]

/-- C5, evaluated at a failing input: both forecast calls succeed and the
SARIMA columns do hold the rounded integers of the raw outputs, but every
Holt-Winters cell of the rendered combined table is NaN — the
`pd.DataFrame(dict-of-Series, index=strftime strings)` construction of lines
241-243 label-aligns the Timestamp-indexed series against the `'%Y-%m'`
string labels and discards the freshly rounded values, so the displayed
Holt-Winters value is not the integer `round(rawValue)` of the raw forecast
(here `1/2, 3/2, 5/2`, whose rounds `0, 2, 2` appear nowhere). The rounded
table values are clearly the intent (the code rounds them, names the column
after them, and plots the same forecast in the chart), making the stray
`index=` argument a code bug rather than a spec error. -/
theorem forecast_hw_column_nan :
    hw_forecast hwA 3
      = Except.ok [(6, hwA.mean 0), (7, hwA.mean 1), (8, hwA.mean 2)]
    ∧ hw_results hwA 3 = some [⟨6, none⟩, ⟨7, none⟩, ⟨8, none⟩]
    ∧ forecast_page (some smA) (some hwA) (some [(3, 4), (5, 6)]) 3
        = ForecastRender.results
            (some [⟨6, roundHalfEven (smA.mean 0), roundHalfEven (smA.ciLo 0),
                    roundHalfEven (smA.ciHi 0), none⟩,
                   ⟨7, roundHalfEven (smA.mean 1), roundHalfEven (smA.ciLo 1),
                    roundHalfEven (smA.ciHi 1), none⟩,
                   ⟨8, roundHalfEven (smA.mean 2), roundHalfEven (smA.ciLo 2),
                    roundHalfEven (smA.ciHi 2), none⟩])
            []
    ∧ hwA.mean 0 = 1 / 2 ∧ roundHalfEven (1 / 2) = 0 := by
  refine ⟨rfl, rfl, rfl, by norm_num [hwA], ?_⟩
  have hf : ⌊(1 / 2 : ℚ)⌋ = 0 := by
    rw [Int.floor_eq_iff]
    constructor <;> norm_num
  simp only [roundHalfEven, hf]
  norm_num

/-! ### Claim theorems: Model Analysis View, loaders, navigation -/

/-- C6: when any fit-quality attribute of a model (AIC, BIC, log-likelihood
or SSE) is absent, the Model Analysis View substitutes the literal string
N/A for that model's metrics and still renders the page; absence of a metric
attribute never turns the rendered page into a failure. -/
theorem metrics_na_fallback (sm : SarimaModel) (hm : HWModel)
    (monthly : List Record) :
    (sm.aic? = none ∨ sm.bic? = none ∨ sm.llf? = none →
        sarimaMetrics sm = (Cell.na, Cell.na, Cell.na))
    ∧ (hm.aic? = none ∨ hm.bic? = none ∨ hm.sse? = none →
        hwMetrics hm = (Cell.na, Cell.na, Cell.na))
    ∧ model_analysis_page (some sm) (some hm) (some monthly)
        = AnalysisRender.page (sarimaMetrics sm) (hwMetrics hm)
    ∧ Cell.na.display = "N/A" := by
  refine ⟨?_, ?_, rfl, rfl⟩
  · intro h
    rcases ha : sm.aic? with _ | a
    · simp [sarimaMetrics, ha]
    · rcases hb : sm.bic? with _ | b
      · simp [sarimaMetrics, ha, hb]
      · rcases hl : sm.llf? with _ | l
        · simp [sarimaMetrics, ha, hb, hl]
        · exfalso
          rcases h with h | h | h <;> simp_all
  · intro h
    rcases ha : hm.aic? with _ | a
    · simp [hwMetrics, ha]
    · rcases hb : hm.bic? with _ | b
      · simp [hwMetrics, ha, hb]
      · rcases hl : hm.sse? with _ | l
        · simp [hwMetrics, ha, hb, hl]
        · exfalso
          rcases h with h | h | h <;> simp_all

theorem metrics_na_fallback_witness :
    sarimaMetrics smNA = (Cell.na, Cell.na, Cell.na)
    ∧ hwMetrics hwNA = (Cell.na, Cell.na, Cell.na)
    ∧ model_analysis_page (some smNA) (some hwNA) (some [(3, 4)])
        = AnalysisRender.page (sarimaMetrics smNA) (hwMetrics hwNA) :=
  ⟨(metrics_na_fallback smNA hwNA [(3, 4)]).1 (Or.inl rfl),
   (metrics_na_fallback smNA hwNA [(3, 4)]).2.1 (Or.inr (Or.inl rfl)),
   (metrics_na_fallback smNA hwNA [(3, 4)]).2.2.1⟩

/-- C7: when `load_data` fails (missing file, or a parse fault such as an
unparseable date), it returns `None` for raw records, daily series and
monthly series, emits an inline error message, and returns normally (no
exception escapes — it is a total function into `LoadOut`); analogously
`load_model` returns `None` plus an inline error on a missing or corrupt
artifact. -/
theorem load_failure_absent_results (monthOf : Nat → Nat)
    (file? : Option (List RawRow)) {M : Type} (art : Artifact M)
    (hfile : file? = none ∨ ∃ rows, file? = some rows ∧ parseDates rows = none)
    (hart : ∀ m : M, art ≠ Artifact.ok m) :
    (load_data monthOf file?).raw = none
    ∧ (load_data monthOf file?).daily = none
    ∧ (load_data monthOf file?).monthly = none
    ∧ (load_data monthOf file?).errors ≠ []
    ∧ (load_model art).1 = none
    ∧ (load_model art).2 ≠ [] := by
  have hmodel : (load_model art).1 = none ∧ (load_model art).2 ≠ [] := by
    cases art with
    | missing => exact ⟨rfl, by simp [load_model]⟩
    | corrupt => exact ⟨rfl, by simp [load_model]⟩
    | ok m => exact absurd rfl (hart m)
  rcases hfile with rfl | ⟨rows, rfl, hrows⟩
  · exact ⟨rfl, rfl, rfl, by simp [load_data], hmodel.1, hmodel.2⟩
  · refine ⟨?_, ?_, ?_, ?_, hmodel.1, hmodel.2⟩ <;>
      simp [load_data, hrows]

theorem load_failure_absent_results_witness :
    (load_data (fun d => d / 31) (some [("x", 2)])).raw = none
    ∧ (load_data (fun d => d / 31) (some [("x", 2)])).daily = none
    ∧ (load_data (fun d => d / 31) (some [("x", 2)])).monthly = none
    ∧ (load_data (fun d => d / 31) (some [("x", 2)])).errors ≠ []
    ∧ (load_model (Artifact.missing : Artifact Unit)).1 = none
    ∧ (load_model (Artifact.missing : Artifact Unit)).2 ≠ [] :=
  load_failure_absent_results (fun d => d / 31) (some [("x", 2)]) Artifact.missing
    (Or.inr ⟨[("x", 2)], rfl, by decide⟩) (fun m h => by cases h)

/-- C8: whenever either model or the monthly series is absent, both the Model
Analysis View and the Forecast View short-circuit to a warning message,
returning before touching the absent model or series (the warning branch of
each page function uses none of them). -/
theorem views_short_circuit (sm? : Option SarimaModel) (hm? : Option HWModel)
    (monthly? : Option (List Record)) (p : Nat)
    (h : sm? = none ∨ hm? = none ∨ monthly? = none) :
    model_analysis_page sm? hm? monthly?
      = AnalysisRender.warning
          "Model atau Data Bulanan belum termuat sepenuhnya. Silakan cek status di log."
    ∧ forecast_page sm? hm? monthly? p
      = ForecastRender.warning
          "Model atau Data Bulanan belum termuat sepenuhnya. Silakan coba lagi atau pastikan file model tersedia." := by
  rcases sm? with _ | sm
  · exact ⟨rfl, rfl⟩
  · rcases hm? with _ | hm
    · exact ⟨rfl, rfl⟩
    · rcases monthly? with _ | mo
      · exact ⟨rfl, rfl⟩
      · exfalso
        rcases h with h | h | h <;> simp at h

theorem views_short_circuit_witness :
    model_analysis_page none (some hwA) (some [(3, 4)])
      = AnalysisRender.warning
          "Model atau Data Bulanan belum termuat sepenuhnya. Silakan cek status di log."
    ∧ forecast_page none (some hwA) (some [(3, 4)]) 3
      = ForecastRender.warning
          "Model atau Data Bulanan belum termuat sepenuhnya. Silakan coba lagi atau pastikan file model tersedia." :=
  views_short_circuit none (some hwA) (some [(3, 4)]) 3 (Or.inl rfl)

/-- C9: the sidebar footer summary (record count plus min/max date of the raw
data) is displayed exactly when the raw data loaded successfully, and omitted
silently (no placeholder, no error) when the load failed. -/
theorem sidebar_footer_presence (raw? : Option (List Record)) :
    (sidebar_footer raw? = none ↔ raw? = none)
    ∧ ∀ df, raw? = some df →
        sidebar_footer raw?
          = some (df.length, (df.map Prod.fst).min?, (df.map Prod.fst).max?) := by
  constructor
  · cases raw? <;> simp [sidebar_footer]
  · rintro df rfl
    rfl

theorem sidebar_footer_presence_witness :
    sidebar_footer (some [((1 : Nat), (3 : Int)), (3, 5)])
      = some (([((1 : Nat), (3 : Int)), (3, 5)]).length,
          (([((1 : Nat), (3 : Int)), (3, 5)]).map Prod.fst).min?,
          (([((1 : Nat), (3 : Int)), (3, 5)]).map Prod.fst).max?) :=
  (sidebar_footer_presence (some [(1, 3), (3, 5)])).2 [(1, 3), (3, 5)] rfl

end Instax
